import Mathlib

/-!
# Verification of the o11y-playground cross-service instrumentation pipeline

Shallow embedding of the Go sources of `j6nca/o11y-playground`:
two concretely instrumented services (`example-api`, `example-app`) and an
api/client service pair (`api-service`, `client-service`).  Handlers are
modelled as functions from their run-time inputs (random work durations,
downstream-call outcomes, loop iteration counts) to the ordered trace of
telemetry events they emit plus the HTTP response they write.

The trace-context propagator and the span parent/child wiring live in the
OpenTelemetry library, not in the repository's own source; those parts are
modelled from the spec (W3C `traceparent` shape, §4.1/§4.2/§4.4/§4.5) and
are marked `Modelled from the spec:` in their doc comments.
-/

namespace O11y

/-- A trace context: 128-bit trace id, 64-bit span id, sampled flag
(spec §3 data model).  Identifiers are `Nat` with explicit bounds
`traceId < 16 ^ 32` and `spanId < 16 ^ 16` where they matter. -/
structure TraceContext where
  traceId : Nat
  spanId : Nat
  sampled : Bool
  deriving Repr, DecidableEq

/-! ## Hexadecimal encoding, modelled from the spec (§4.1 traceparent shape) -/

/-- Lowercase hex digit for a value, defined on `n % 16`-style inputs. -/
def natToHexDigit (n : Nat) : Char :=
  (("0123456789abcdef".toList).getD n 'x')

/-- Decode a single hex digit character; `none` on a non-hex character. -/
def hexDigitToNat (c : Char) : Option Nat :=
  if c = '0' then some 0 else if c = '1' then some 1
  else if c = '2' then some 2 else if c = '3' then some 3
  else if c = '4' then some 4 else if c = '5' then some 5
  else if c = '6' then some 6 else if c = '7' then some 7
  else if c = '8' then some 8 else if c = '9' then some 9
  else if c = 'a' then some 10 else if c = 'b' then some 11
  else if c = 'c' then some 12 else if c = 'd' then some 13
  else if c = 'e' then some 14 else if c = 'f' then some 15
  else none

/-- Fixed-width big-endian hex rendering: `toHexCore w n acc` prepends the
`w` low hex digits of `n` (most significant first) to `acc`. -/
def toHexCore : Nat → Nat → List Char → List Char
  | 0, _, acc => acc
  | w + 1, n, acc => toHexCore w (n / 16) (natToHexDigit (n % 16) :: acc)

/-- Parse a hex digit list left to right, accumulating; `none` on the first
non-hex character. -/
def fromHexCore : Nat → List Char → Option Nat
  | acc, [] => some acc
  | acc, c :: cs =>
    match hexDigitToNat c with
    | some d => fromHexCore (acc * 16 + d) cs
    | none => none

/-- Split a character list on `'-'` separators (list of segments). -/
def splitOnDash : List Char → List (List Char)
  | [] => [[]]
  | c :: cs =>
    if c = '-' then [] :: splitOnDash cs
    else
      match splitOnDash cs with
      | [] => [[c]]
      | s :: ss => (c :: s) :: ss

/-! ## Propagator.

Modelled from the spec: `inject`/`extract` are the OTel library's
`propagation.TraceContext{}` installed by `setupTracer` / `initTracer`
(`src/example-api/main.go:228`, `src/unnamed/part_000:50`); their bodies are
not in the repository, so they are modelled from spec §4.1: the composite
string `version-traceid-spanid-flags` with 2/32/16/2 hex digits, decode
failure yields `None`, never an error. -/

/-- Modelled from the spec: serialise a `TraceContext` into the composite
traceparent string (version `00`, flags `01` when sampled else `00`). -/
def injectTraceparent (ctx : TraceContext) : List Char :=
  '0' :: '0' :: '-' ::
    (toHexCore 32 ctx.traceId
      ('-' :: toHexCore 16 ctx.spanId
        ('-' :: '0' :: [if ctx.sampled then '1' else '0'])))

/-- Modelled from the spec: parse the four dash-separated segments of a
traceparent string; any malformation (wrong segment count, wrong field
lengths, non-hex characters, all-zero trace or span id) yields `none`. -/
def parseSegs : List (List Char) → Option TraceContext
  | [v, t, s, f] =>
    if v.length = 2 ∧ t.length = 32 ∧ s.length = 16 ∧ f.length = 2 then
      match fromHexCore 0 v, fromHexCore 0 t, fromHexCore 0 s, fromHexCore 0 f with
      | some _, some tid, some sid, some fl =>
        if tid ≠ 0 ∧ sid ≠ 0 then some ⟨tid, sid, fl % 2 == 1⟩ else none
      | _, _, _, _ => none
    else none
  | _ => none

/-- Modelled from the spec: total traceparent decoder (§4.1). -/
def parseTraceparent (cs : List Char) : Option TraceContext :=
  parseSegs (splitOnDash cs)

/-- A transport carrier: a text key/value map (spec §4.1). -/
def Carrier : Type := List (String × String)

/-- Look a key up in a carrier. -/
def carrierGet : List (String × String) → String → Option String
  | [], _ => none
  | (k, v) :: rest, key => if k = key then some v else carrierGet rest key

/-- Modelled from the spec: `inject(ctx, carrier)` writes the composite
string under the `traceparent` key. -/
def injectCarrier (ctx : TraceContext) (c : Carrier) : Carrier :=
  ("traceparent", String.mk (injectTraceparent ctx)) :: c

/-- Modelled from the spec: `extract(carrier) -> TraceContext|None`. -/
def extractCarrier (c : Carrier) : Option TraceContext :=
  match carrierGet c "traceparent" with
  | some s => parseTraceparent s.data
  | none => none

/-! ## Telemetry events and handler results

Each HTTP handler of the four services is embedded as a function from its
run-time inputs (random work duration, downstream-call outcome, loop
iteration count, JSON-marshal outcome) to the ordered list of telemetry
events it emits and the HTTP response it writes. -/

/-- One telemetry side effect emitted while handling a request. -/
inductive Event
  /-- A span is opened (`tracer.Start`). -/
  | spanStart (name : String)
  /-- A span is closed (`span.End`, always deferred in the sources). -/
  | spanEnd (name : String)
  /-- A counter increment with its label names and label values
  (`requestCount.WithLabelValues(...).Inc()`). -/
  | inc (labelNames : List String) (labelValues : List String)
  /-- A latency observation in seconds keyed by path
  (`requestLatency.WithLabelValues(path).Observe(seconds)`). -/
  | observe (path : String) (seconds : Rat)
  /-- A gauge update (`workLevel.Set`). -/
  | gauge (value : Rat)
  /-- A log line (slog / log outputs; ambient diagnostics). -/
  | logLine (msg : String)
  /-- `span.RecordError(err)`. -/
  | recordError (msg : String)
  /-- `span.SetAttributes(...)`. -/
  | setAttr (key : String)
  deriving Repr, DecidableEq

/-- The HTTP response a handler writes. -/
structure Response where
  status : Nat
  body : String
  deriving Repr, DecidableEq

/-- Events emitted plus response written by one handler invocation. -/
structure HandlerResult where
  events : List Event
  response : Response
  deriving Repr, DecidableEq

def isSpanStart : Event → Bool
  | .spanStart _ => true
  | _ => false

def isSpanEnd : Event → Bool
  | .spanEnd _ => true
  | _ => false

def isInc : Event → Bool
  | .inc _ _ => true
  | _ => false

def isObserve : Event → Bool
  | .observe _ _ => true
  | _ => false

def isMetricEvent : Event → Bool
  | .inc _ _ => true
  | .observe _ _ => true
  | .gauge _ => true
  | _ => false

/-- Number of span-start events in a trace. -/
def spanStarts (es : List Event) : Nat := (es.filter isSpanStart).length

/-- Number of span-end events in a trace. -/
def spanEnds (es : List Event) : Nat := (es.filter isSpanEnd).length

/-- The counter-increment events of a trace. -/
def incEvents (es : List Event) : List Event := es.filter isInc

/-- The latency-observation events of a trace. -/
def obsEvents (es : List Event) : List Event := es.filter isObserve

/-- The registry-mutating (counter/histogram/gauge) events of a trace. -/
def metricEvents (es : List Event) : List Event := es.filter isMetricEvent

/-- Label names of an increment event (`[]` for other events). -/
def incLabelNames : Event → List String
  | .inc ns _ => ns
  | _ => []

/-- The otelhttp server wrapper (`otelhttp.NewHandler(h, name)`):
opens one span around the wrapped handler and closes it when the
handler returns; it does not alter the response. -/
def otelWrap (name : String) (h : HandlerResult) : HandlerResult :=
  { events := .spanStart name :: h.events ++ [.spanEnd name],
    response := h.response }

/-- Span status, as the spec's `{ok, error(reason)}` (§3). -/
inductive SpanStatus
  | ok
  | error
  deriving Repr, DecidableEq

/-- Modelled from the spec: §4.4 (5) — the Instrumented Handler Wrapper
(the otelhttp server handler, library code not in the repository) marks its
span with error status when the handler's transport status is a server
error, and ok otherwise. -/
def wrapperSpanStatus (h : HandlerResult) : SpanStatus :=
  if 500 ≤ h.response.status then .error else .ok

/-- Modelled from the spec: §4.4 (1) — the wrapper extracts the inbound
TraceContext via the propagator, defaulting to a fresh root (new ids,
unsampled) if extraction fails. -/
def inboundContext (carrier : Carrier) (freshTrace freshSpan : Nat) :
    TraceContext :=
  match extractCarrier carrier with
  | some c => c
  | none => ⟨freshTrace, freshSpan, false⟩

/-! ## example-api service (src/example-api/main.go)

The file holds two concatenated copies of the program; the handler logic is
identical in both (the copies differ only in the `Product`/`Employee`
record fields), so the handlers are embedded once, following the first
copy. -/

/-- Fixed label names of `requestCount`
(src/example-api/main.go:35 and src/example-app/main.go:35). -/
def requestCountLabelNames : List String := ["path", "method"]

/-- Fixed label names of `requestLatency`
(src/example-api/main.go:45 and src/example-app/main.go:45). -/
def requestLatencyLabelNames : List String := ["path"]

/-- A product record of example-api (first copy). -/
structure Product where
  id : Nat
  name : String
  price : Nat
  deriving Repr, DecidableEq

/-- An employee record of example-api (first copy). -/
structure Employee where
  id : Nat
  name : String
  position : String
  deriving Repr, DecidableEq

/-- `json.Marshal` of one `Product`. -/
def productJson (p : Product) : String :=
  "\x7b\"id\":" ++ toString p.id ++ ",\"name\":\"" ++ p.name ++
    "\",\"price\":" ++ toString p.price ++ "\x7d"

/-- `json.Marshal` of one `Employee`. -/
def employeeJson (e : Employee) : String :=
  "\x7b\"id\":" ++ toString e.id ++ ",\"name\":\"" ++ e.name ++
    "\",\"position\":\"" ++ e.position ++ "\"\x7d"

/-- `json.Marshal` of a list rendered with a serializer for the elements. -/
def jsonArray (xs : List String) : String :=
  "[" ++ String.intercalate "," xs ++ "]"

/-- The fixed product list of `getProducts` (src/example-api/main.go:273). -/
def productsApi : List Product :=
  [⟨1, "Mug", 1099⟩, ⟨2, "Bowl", 1599⟩, ⟨3, "Plate", 1299⟩,
   ⟨4, "Fork", 599⟩, ⟨5, "Spoon", 799⟩, ⟨6, "Knife", 1099⟩,
   ⟨7, "Cup", 899⟩, ⟨8, "Saucer", 699⟩, ⟨9, "Dish", 1499⟩,
   ⟨10, "Glass", 1199⟩]

/-- The fixed employee list of `getEmployees` (src/example-api/main.go:256). -/
def employeesApi : List Employee :=
  [⟨1, "Jeff", "Manager"⟩, ⟨2, "Benny", "Sales Associate"⟩,
   ⟨3, "Lisa", "Assistant Manager"⟩, ⟨4, "Craig", "Sales Associate"⟩,
   ⟨5, "Greg", "Sales Associate"⟩, ⟨6, "Sheila", "Product Tester"⟩,
   ⟨7, "Steven", "Clerk"⟩, ⟨8, "Kelly", "Clerk"⟩,
   ⟨9, "Dina", "Cashier"⟩, ⟨10, "Kevin", "Cashier"⟩]

/-- The values the busy loop of `cpuIntensiveWork`
(src/example-api/main.go:294) computes and discards, in iteration order:
`i * i` for `i = 0 .. iterations - 1`. -/
def cpuWorkValues : Nat → List Nat
  | 0 => []
  | n + 1 => cpuWorkValues n ++ [n * n]

/-- Root (`/`) handler of example-api (src/example-api/main.go:103-123).
`workMs` is the random sleep duration in milliseconds. -/
def apiRootHandler (method : String) (workMs : Nat) : HandlerResult :=
  { events := [
      .spanStart "example-api-handler",
      .logLine "Received request on root path",
      .gauge (workMs : Rat),
      .inc requestCountLabelNames ["/", method],
      .observe "/" ((workMs : Rat) / 1000),
      .logLine "Request handled successfully",
      .spanEnd "example-api-handler"],
    response := ⟨200, "This is the kitchen store api. Work completed in " ++
      toString workMs ++ " ms.\n"⟩ }

/-- `/error` handler, identical in example-api and example-app
(src/example-api/main.go:126-133, src/example-app/main.go:126-133):
logs, increments the counter, writes a 500 via `http.Error`. -/
def errorRouteHandler (method : String) : HandlerResult :=
  { events := [
      .logLine "An intentional error occurred.",
      .inc requestCountLabelNames ["/error", method]],
    response := { status := 500, body := "An intentional error occurred.\n" } }

/-- `/products` handler of example-api (src/example-api/main.go:135-160).
`durSec` is the measured `time.Since(start)` in seconds; `marshalErr`
models the `json.Marshal` error branch (`none` = success). -/
def apiProductsHandler (method : String) (durSec : Rat)
    (marshalErr : Option String) : HandlerResult :=
  { events := [
      .spanStart "products-handler",
      .logLine "Received request on products path",
      .inc requestCountLabelNames ["/products", method],
      .observe "/products" durSec,
      .logLine "Request handled successfully",
      .spanEnd "products-handler"],
    response :=
      match marshalErr with
      | some e => ⟨500, e ++ "\n"⟩
      | none => ⟨200, jsonArray (productsApi.map productJson)⟩ }

/-- `/employees` handler of example-api (src/example-api/main.go:162-189). -/
def apiEmployeesHandler (method : String) (durSec : Rat)
    (marshalErr : Option String) : HandlerResult :=
  { events := [
      .spanStart "employees-handler",
      .logLine "Received request on employees path",
      .inc requestCountLabelNames ["/employees", method],
      .observe "/employees" durSec,
      .logLine "Request handled successfully",
      .spanEnd "employees-handler"],
    response :=
      match marshalErr with
      | some e => ⟨500, e ++ "\n"⟩
      | none => ⟨200, jsonArray (employeesApi.map employeeJson)⟩ }

/-! ## example-app service (src/example-app/main.go) -/

/-- The outcome of the outbound call `client.Do(req)` in the app's root
handler: a connection error, or a downstream response with its status,
body, and the wall-clock time the call actually took (which the handler
never reads). -/
inductive CallResult
  | connError (msg : String)
  | success (status : Nat) (body : String) (elapsedMs : Nat)
  deriving Repr, DecidableEq

/-- Root (`/`) handler of example-app (src/example-app/main.go:92-123):
calls example-api through the instrumented client; on connection error it
writes a 500 and returns before the metric statements; on any downstream
response it forwards the body with status 200 and then records the counter
and a latency observation of literally `0`. -/
def appRootHandler (method : String) (r : CallResult) : HandlerResult :=
  match r with
  | .connError _ =>
    { events := [
        .spanStart "example-app-handler",
        .logLine "Received request on root path",
        .logLine "Failed to call Go api service",
        .spanEnd "example-app-handler"],
      response := ⟨500, "Failed to call example-api service\n"⟩ }
  | .success _ body _ =>
    { events := [
        .spanStart "example-app-handler",
        .logLine "Received request on root path",
        .logLine "Successfully called Go api service",
        .inc requestCountLabelNames ["/", method],
        .observe "/" 0,
        .spanEnd "example-app-handler"],
      response := { status := 200, body := body } }

/-! ## client-service (src/unnamed/part_000) -/

/-- A product record of the api/client service pair (string ids). -/
structure ProductS where
  id : String
  name : String
  price : Nat
  deriving Repr, DecidableEq

/-- Landing-page handler of client-service (src/unnamed/part_000:55-62). -/
def handleLandingPage : HandlerResult :=
  { events := [
      .spanStart "example-api-handler",
      .logLine "Client request received, serving landing page...",
      .spanEnd "example-api-handler"],
    response := { status := 200, body := "Welcome to the kitchen store!\n" } }

/-- The outcome of `client.Get` plus JSON decoding in `fetchProducts`:
a connection error, or a response with a status code and (when read) the
decode outcome of its body. -/
inductive ApiCallResult
  | connError (msg : String)
  | resp (status : Nat) (decoded : Except String (List ProductS))
  deriving Repr

/-- The HTML product listing `fetchProducts` writes on success. -/
def productsHtml (ps : List ProductS) : String :=
  "<html><body><h1>Our Products</h1><ul>" ++
    String.join (ps.map fun p =>
      "<li><strong>" ++ p.id ++ "</strong>: " ++ p.name ++
        " ($" ++ toString p.price ++ ")</li>") ++
    "</ul></body></html>"

/-- `fetchProducts` handler of client-service (src/unnamed/part_000:65-103):
connection error → `RecordError` + 500; non-200 downstream status → 502;
decode error → `RecordError` + 500; success → 200 HTML.  The span opened at
entry is ended by `defer` on every path. -/
def fetchProducts (r : ApiCallResult) : HandlerResult :=
  match r with
  | .connError msg =>
    { events := [
        .spanStart "client-products-page",
        .logLine "Client request received, fetching products from API...",
        .recordError msg,
        .spanEnd "client-products-page"],
      response := ⟨500, "Error fetching products: " ++ msg ++ "\n"⟩ }
  | .resp status decoded =>
    if status = 200 then
      match decoded with
      | .error e =>
        { events := [
            .spanStart "client-products-page",
            .logLine "Client request received, fetching products from API...",
            .recordError e,
            .spanEnd "client-products-page"],
          response := ⟨500, "Error decoding products JSON: " ++ e ++ "\n"⟩ }
      | .ok ps =>
        { events := [
            .spanStart "client-products-page",
            .logLine "Client request received, fetching products from API...",
            .logLine "Products data served to client.",
            .spanEnd "client-products-page"],
          response := { status := 200, body := productsHtml ps } }
    else
      { events := [
          .spanStart "client-products-page",
          .logLine "Client request received, fetching products from API...",
          .spanEnd "client-products-page"],
        response := ⟨502, "API service returned non-200 status code: " ++
          toString status ++ "\n"⟩ }

/-! ## api-service (src/unnamed/part_001) -/

/-- The counter computed by the busy loop of `simulateBottleneck`
(src/unnamed/part_001:113-116): starts at 0 and adds 1 per iteration. -/
def bottleneckCounter : Nat → Int
  | 0 => 0
  | n + 1 => bottleneckCounter n + 1

/-- `simulateBottleneck` (src/unnamed/part_001:105-119): opens its own
child span, logs, runs the busy loop, formats the counter into a string
that is discarded, logs, and ends the span by `defer`.  Returns its event
trace and the loop's final counter (which the caller never uses). -/
def simulateBottleneck (iterations : Nat) : List Event × Int :=
  ([.spanStart "simulate-cpu-work",
    .logLine "Simulating a CPU-intensive bottleneck...",
    .logLine "CPU-intensive work complete.",
    .spanEnd "simulate-cpu-work"],
   bottleneckCounter iterations)

/-- The fixed product list of api-service (src/unnamed/part_001:80-84). -/
def productsSvc : List ProductS :=
  [⟨"prod-001", "Laptop", 1500⟩, ⟨"prod-002", "Mouse", 50⟩,
   ⟨"prod-003", "Keyboard", 120⟩]

/-- `json.Marshal` of one string-id product (`json.NewEncoder.Encode`
form). -/
def productSJson (p : ProductS) : String :=
  "\x7b\"id\":\"" ++ p.id ++ "\",\"name\":\"" ++ p.name ++
    "\",\"price\":" ++ toString p.price ++ "\x7d"

/-- `productsHandler` of api-service (src/unnamed/part_001:66-89),
parameterised by the bottleneck iteration count (the source fixes it to
500000000). -/
def svcProductsHandler (iterations : Nat) : HandlerResult :=
  { events := .spanStart "products-handler" ::
      .logLine "Handling /products request..." ::
      (simulateBottleneck iterations).1 ++
      [.setAttr "bottleneck_simulated",
       .logLine "products request handled.",
       .spanEnd "products-handler"],
    response := ⟨200, jsonArray (productsSvc.map productSJson) ++ "\n"⟩ }

/-- `employeesHandler` of api-service (src/unnamed/part_001:92-101):
no handler-level span, fixed JSON response. -/
def svcEmployeesHandler : HandlerResult :=
  { events := [
      .logLine "Handling /employees request...",
      .logLine "employees request handled."],
    response := ⟨200,
      "[\x7b\"id\":\"emp-001\",\"name\":\"Alice\",\"position\":\"Engineer\"\x7d," ++
        "\x7b\"id\":\"emp-002\",\"name\":\"Bob\",\"position\":\"Manager\"\x7d]\n"⟩ }

/-! ## Span chain across services (spec-modelled, §4.2/§4.4/§4.5) -/

/-- A finished span's identifiers, for the cross-service linkage claims. -/
structure SpanRec where
  traceId : Nat
  spanId : Nat
  parentSpanId : Option Nat
  deriving Repr, DecidableEq

/-- Modelled from the spec: one service hop (§4.4 steps 1-2 and §4.5) —
extract the inbound context from the carrier (falling back to a fresh root
trace on failure), open a span inheriting the trace id with the inbound
span id as parent, and inject the hop's own context into the outbound
carrier.  The span id minting and context wiring are OTel library code,
not in the repository. -/
def hop (carrier : Carrier) (freshTrace freshSpan : Nat) :
    SpanRec × Carrier :=
  match extractCarrier carrier with
  | some c =>
    (⟨c.traceId, freshSpan, some c.spanId⟩,
      injectCarrier ⟨c.traceId, freshSpan, c.sampled⟩ [])
  | none =>
    (⟨freshTrace, freshSpan, none⟩,
      injectCarrier ⟨freshTrace, freshSpan, true⟩ [])

/-- The spans produced by a chain of services, each reached only through
the injected carrier of the previous hop; `fresh` lists each hop's freshly
minted (trace id, span id) pair. -/
def chainFrom (carrier : Carrier) : List (Nat × Nat) → List SpanRec
  | [] => []
  | f :: fs =>
    (hop carrier f.1 f.2).1 :: chainFrom (hop carrier f.1 f.2).2 fs

/-- Each span's parent is the previous span in the list (the first one's
parent is the given id). -/
def wellLinked : Option Nat → List SpanRec → Prop
  | _, [] => True
  | parent, s :: rest => s.parentSpanId = parent ∧ wellLinked (some s.spanId) rest

/-- Whether a counter-increment event carries the label pair `k = v`
(label names and values are positionally aligned in the sources). -/
def carriesLabel (e : Event) (k v : String) : Bool :=
  match e with
  | .inc ns vs => (ns.zip vs).contains (k, v)
  | _ => false

/-- The per-request metric shape asserted by the spec sentence behind C3:
exactly one counter increment whose label set is a fixed triple including
`status_code`, and exactly one latency observation. -/
def countedWithStatusTriple (h : HandlerResult) : Prop :=
  (incEvents h.events).length = 1 ∧
    (∀ e ∈ incEvents h.events,
      (incLabelNames e).length = 3 ∧ "status_code" ∈ incLabelNames e) ∧
    (obsEvents h.events).length = 1

/-! ### Propagator lemmas -/

theorem hexDigitToNat_natToHexDigit (d : Nat) (hd : d < 16) :
    hexDigitToNat (natToHexDigit d) = some d := by
  interval_cases d <;> rfl

theorem natToHexDigit_ne_dash (d : Nat) (hd : d < 16) :
    natToHexDigit d ≠ '-' := by
  interval_cases d <;> decide

theorem toHexCore_length (w : Nat) :
    ∀ n acc, (toHexCore w n acc).length = w + acc.length := by
  induction w with
  | zero => intro n acc; simp [toHexCore]
  | succ w ih =>
    intro n acc
    rw [toHexCore, ih]
    simp [List.length_cons]
    omega

theorem toHexCore_no_dash (w : Nat) :
    ∀ n acc, '-' ∉ acc → '-' ∉ toHexCore w n acc := by
  induction w with
  | zero => intro n acc h; simpa [toHexCore] using h
  | succ w ih =>
    intro n acc h
    apply ih
    intro hmem
    rcases List.mem_cons.mp hmem with heq | hmem'
    · exact natToHexDigit_ne_dash (n % 16) (Nat.mod_lt _ (by norm_num)) heq.symm
    · exact h hmem'

theorem fromHexCore_toHexCore (w : Nat) :
    ∀ n acc rest, n < 16 ^ w →
      fromHexCore acc (toHexCore w n rest) = fromHexCore (acc * 16 ^ w + n) rest := by
  induction w with
  | zero =>
    intro n acc rest hn
    have : n = 0 := by omega
    subst this
    simp [toHexCore]
  | succ w ih =>
    intro n acc rest hn
    rw [toHexCore]
    rw [ih (n / 16) acc _ (by
      have h16 : (16 : Nat) ^ (w + 1) = 16 ^ w * 16 := by ring
      rw [h16] at hn
      exact Nat.div_lt_of_lt_mul (by omega))]
    rw [fromHexCore]
    rw [hexDigitToNat_natToHexDigit (n % 16) (Nat.mod_lt _ (by norm_num))]
    show fromHexCore ((acc * 16 ^ w + n / 16) * 16 + n % 16) rest =
      fromHexCore (acc * 16 ^ (w + 1) + n) rest
    have hstep : (acc * 16 ^ w + n / 16) * 16 + n % 16 = acc * 16 ^ (w + 1) + n := by
      have hmul : acc * 16 ^ (w + 1) = acc * 16 ^ w * 16 := by ring
      rw [hmul]
      omega
    rw [hstep]

theorem splitOnDash_no_dash :
    ∀ l : List Char, '-' ∉ l → splitOnDash l = [l] := by
  intro l
  induction l with
  | nil => intro _; rfl
  | cons c cs ih =>
    intro h
    have hc : c ≠ '-' := fun hh => h (hh ▸ List.mem_cons_self c cs)
    have hcs : '-' ∉ cs := fun hh => h (List.mem_cons_of_mem _ hh)
    rw [splitOnDash, if_neg hc, ih hcs]

theorem splitOnDash_append (seg : List Char) (rest : List Char)
    (h : '-' ∉ seg) :
    splitOnDash (seg ++ '-' :: rest) = seg :: splitOnDash rest := by
  induction seg with
  | nil =>
    simp only [List.nil_append]
    rw [splitOnDash, if_pos rfl]
  | cons c cs ih =>
    have hc : c ≠ '-' := fun hh => h (hh ▸ List.mem_cons_self c cs)
    have hcs : '-' ∉ cs := fun hh => h (List.mem_cons_of_mem _ hh)
    simp only [List.cons_append]
    rw [splitOnDash, if_neg hc, ih hcs]

theorem fromHexCore_closed (w n : Nat) (hn : n < 16 ^ w) :
    fromHexCore 0 (toHexCore w n []) = some n := by
  rw [fromHexCore_toHexCore w n 0 [] hn]
  simp [fromHexCore]

/-- The injected traceparent string splits into exactly the four segments
written by `injectTraceparent`. -/
theorem splitOnDash_inject (ctx : TraceContext) :
    splitOnDash (injectTraceparent ctx) =
      [['0', '0'], toHexCore 32 ctx.traceId [], toHexCore 16 ctx.spanId [],
        ['0', if ctx.sampled then '1' else '0']] := by
  have h1 : ('-' : Char) ∉ ['0', '0'] := by decide
  have h2 : ('-' : Char) ∉ toHexCore 32 ctx.traceId [] :=
    toHexCore_no_dash 32 ctx.traceId [] (by simp)
  have h3 : ('-' : Char) ∉ toHexCore 16 ctx.spanId [] :=
    toHexCore_no_dash 16 ctx.spanId [] (by simp)
  have h4 : ('-' : Char) ∉ ['0', if ctx.sampled then '1' else '0'] := by
    cases ctx.sampled <;> decide
  have hinj : injectTraceparent ctx =
      ['0', '0'] ++ '-' :: (toHexCore 32 ctx.traceId [] ++ '-' ::
        (toHexCore 16 ctx.spanId [] ++ '-' ::
          ['0', if ctx.sampled then '1' else '0'])) := by
    rw [injectTraceparent]
    have hmid : ∀ (t : List Char) (tail : List Char),
        toHexCore 16 ctx.spanId tail = toHexCore 16 ctx.spanId [] ++ tail := by
      intro t tail
      have : ∀ w m (a : List Char), toHexCore w m a = toHexCore w m [] ++ a := by
        intro w
        induction w with
        | zero => intro m a; simp [toHexCore]
        | succ w ih =>
          intro m a
          rw [toHexCore, toHexCore, ih (m / 16), ih (m / 16) [natToHexDigit (m % 16)]]
          simp
      exact this 16 ctx.spanId tail
    have hsplit : ∀ w m (a : List Char), toHexCore w m a = toHexCore w m [] ++ a := by
      intro w
      induction w with
      | zero => intro m a; simp [toHexCore]
      | succ w ih =>
        intro m a
        rw [toHexCore, toHexCore, ih (m / 16), ih (m / 16) [natToHexDigit (m % 16)]]
        simp
    rw [hsplit 32, hsplit 16]
    simp
  rw [hinj]
  rw [splitOnDash_append _ _ h1, splitOnDash_append _ _ h2,
    splitOnDash_append _ _ h3, splitOnDash_no_dash _ h4]

/-- Core round trip: parsing the injected traceparent string recovers the
context, for identifiers in range and non-zero. -/
theorem parse_inject (ctx : TraceContext)
    (ht : ctx.traceId < 16 ^ 32) (ht0 : ctx.traceId ≠ 0)
    (hs : ctx.spanId < 16 ^ 16) (hs0 : ctx.spanId ≠ 0) :
    parseTraceparent (injectTraceparent ctx) = some ctx := by
  obtain ⟨tid, sid, smp⟩ := ctx
  rw [parseTraceparent, splitOnDash_inject]
  rw [parseSegs]
  have hlen2 : (toHexCore 32 tid []).length = 32 := by
    rw [toHexCore_length]; rfl
  have hlen3 : (toHexCore 16 sid []).length = 16 := by
    rw [toHexCore_length]; rfl
  rw [if_pos ⟨rfl, hlen2, hlen3, rfl⟩]
  rw [fromHexCore_closed 32 tid ht, fromHexCore_closed 16 sid hs]
  have hflags : fromHexCore 0
      ['0', if (TraceContext.mk tid sid smp).sampled then '1' else '0'] =
      some (if smp then 1 else 0) := by
    cases smp <;> rfl
  rw [hflags]
  cases smp
  · show (if tid ≠ 0 ∧ sid ≠ 0
        then some (TraceContext.mk tid sid (0 % 2 == 1)) else none) =
      some (TraceContext.mk tid sid false)
    rw [if_pos ⟨ht0, hs0⟩]
    rfl
  · show (if tid ≠ 0 ∧ sid ≠ 0
        then some (TraceContext.mk tid sid (1 % 2 == 1)) else none) =
      some (TraceContext.mk tid sid true)
    rw [if_pos ⟨ht0, hs0⟩]
    rfl

/-- Carrier-level round trip on the empty carrier. -/
theorem extract_inject (ctx : TraceContext)
    (ht : ctx.traceId < 16 ^ 32) (ht0 : ctx.traceId ≠ 0)
    (hs : ctx.spanId < 16 ^ 16) (hs0 : ctx.spanId ≠ 0) :
    extractCarrier (injectCarrier ctx []) = some ctx := by
  rw [injectCarrier, extractCarrier, carrierGet, if_pos rfl]
  exact parse_inject ctx ht ht0 hs hs0

/-! ### Malformed-input lemmas for the decoder -/

theorem parseSegs_length_ne_four (segs : List (List Char))
    (h : segs.length ≠ 4) : parseSegs segs = none := by
  rcases segs with _ | ⟨a, _ | ⟨b, _ | ⟨c, _ | ⟨d, _ | ⟨e, rest⟩⟩⟩⟩⟩
  · rfl
  · rfl
  · rfl
  · rfl
  · exact absurd rfl h
  · rfl

theorem fromHexCore_none (l : List Char) (c : Char) (hc : c ∈ l)
    (hnone : hexDigitToNat c = none) : ∀ a, fromHexCore a l = none := by
  induction l with
  | nil => cases hc
  | cons x xs ih =>
    intro a
    rcases List.mem_cons.mp hc with rfl | hmem
    · rw [fromHexCore, hnone]
    · rw [fromHexCore]
      cases hx : hexDigitToNat x
      · rfl
      · exact ih hmem _

theorem parseSegs_none_of_bad_lengths (v t s f : List Char)
    (h : ¬(v.length = 2 ∧ t.length = 32 ∧ s.length = 16 ∧ f.length = 2)) :
    parseSegs [v, t, s, f] = none := by
  rw [parseSegs, if_neg h]

theorem parseSegs_none_of_nonhex (v t s f : List Char)
    (h : fromHexCore 0 v = none ∨ fromHexCore 0 t = none ∨
      fromHexCore 0 s = none ∨ fromHexCore 0 f = none) :
    parseSegs [v, t, s, f] = none := by
  rw [parseSegs]
  by_cases hlen : v.length = 2 ∧ t.length = 32 ∧ s.length = 16 ∧ f.length = 2
  · rw [if_pos hlen]
    split
    · rename_i x tid sid fl heq
      rcases h with h | h | h | h <;> simp_all
    · rfl
  · rw [if_neg hlen]

/-! ### Busy-loop closed forms -/

theorem cpuWorkValues_closed (n : Nat) :
    cpuWorkValues n = (List.range n).map fun i => i * i := by
  induction n with
  | zero => rfl
  | succ n ih => rw [cpuWorkValues, ih, List.range_succ]; simp

theorem bottleneckCounter_closed (n : Nat) : bottleneckCounter n = n := by
  induction n with
  | zero => rfl
  | succ n ih => rw [bottleneckCounter, ih]; push_cast; ring

/-! ### Chain propagation invariant -/

theorem chainFrom_invariant (fs : List (Nat × Nat)) :
    ∀ (carrier : Carrier) (ctx : TraceContext),
      extractCarrier carrier = some ctx →
      ctx.traceId < 16 ^ 32 → ctx.traceId ≠ 0 →
      (∀ p ∈ fs, p.2 < 16 ^ 16 ∧ p.2 ≠ 0) →
      (∀ s ∈ chainFrom carrier fs, s.traceId = ctx.traceId) ∧
        wellLinked (some ctx.spanId) (chainFrom carrier fs) := by
  induction fs with
  | nil =>
    intro carrier ctx hx ht ht0 hfs
    exact ⟨fun s hs => absurd hs (List.not_mem_nil s), trivial⟩
  | cons f fs ih =>
    intro carrier ctx hx ht ht0 hfs
    have hf := hfs f (List.mem_cons_self f fs)
    have hhop1 : (hop carrier f.1 f.2).1 =
        ⟨ctx.traceId, f.2, some ctx.spanId⟩ := by
      rw [hop, hx]
    have hhop2 : (hop carrier f.1 f.2).2 =
        injectCarrier ⟨ctx.traceId, f.2, ctx.sampled⟩ [] := by
      rw [hop, hx]
    have hx' : extractCarrier (hop carrier f.1 f.2).2 =
        some ⟨ctx.traceId, f.2, ctx.sampled⟩ := by
      rw [hhop2]
      exact extract_inject _ ht ht0 hf.1 hf.2
    obtain ⟨htr, hlink⟩ := ih (hop carrier f.1 f.2).2
      ⟨ctx.traceId, f.2, ctx.sampled⟩ hx' ht ht0
      (fun p hp => hfs p (List.mem_cons_of_mem _ hp))
    constructor
    · intro s hs
      rw [chainFrom] at hs
      rcases List.mem_cons.mp hs with rfl | hs'
      · rw [hhop1]
      · exact htr s hs'
    · rw [chainFrom, wellLinked]
      refine ⟨by rw [hhop1], ?_⟩
      rw [hhop1]
      exact hlink

/-! ## Claim theorems -/

/-- C1: for every request handled by any of the four services, on every
execution path — success, handler error, connection error, non-200
downstream status, decode failure, marshal failure — the number of
span-start events in the request's trace equals the number of span-end
events once the response completes (the otelhttp wrapper span included):
every opened span is closed exactly once, since every `Start` is paired
with a deferred `End`. -/
theorem C1_spans_balanced :
    (∀ m w, spanStarts (otelWrap "example-api-handler-span" (apiRootHandler m w)).events =
        spanEnds (otelWrap "example-api-handler-span" (apiRootHandler m w)).events) ∧
    (∀ m, spanStarts (otelWrap "error-handler-span" (errorRouteHandler m)).events =
        spanEnds (otelWrap "error-handler-span" (errorRouteHandler m)).events) ∧
    (∀ m d me, spanStarts (otelWrap "products-handler-span" (apiProductsHandler m d me)).events =
        spanEnds (otelWrap "products-handler-span" (apiProductsHandler m d me)).events) ∧
    (∀ m d me, spanStarts (otelWrap "employees-handler-span" (apiEmployeesHandler m d me)).events =
        spanEnds (otelWrap "employees-handler-span" (apiEmployeesHandler m d me)).events) ∧
    (∀ m r, spanStarts (otelWrap "example-app-handler-span" (appRootHandler m r)).events =
        spanEnds (otelWrap "example-app-handler-span" (appRootHandler m r)).events) ∧
    (spanStarts (otelWrap "/" handleLandingPage).events =
        spanEnds (otelWrap "/" handleLandingPage).events) ∧
    (∀ r, spanStarts (otelWrap "/products" (fetchProducts r)).events =
        spanEnds (otelWrap "/products" (fetchProducts r)).events) ∧
    (∀ n, spanStarts (otelWrap "products-handler" (svcProductsHandler n)).events =
        spanEnds (otelWrap "products-handler" (svcProductsHandler n)).events) ∧
    (spanStarts (otelWrap "employees-handler" svcEmployeesHandler).events =
        spanEnds (otelWrap "employees-handler" svcEmployeesHandler).events) := by
  refine ⟨fun m w => rfl, fun m => rfl, fun m d me => rfl, fun m d me => rfl,
    ?_, rfl, ?_, fun n => rfl, rfl⟩
  · intro m r
    cases r <;> rfl
  · intro r
    rcases r with msg | ⟨s, d⟩
    · rfl
    · by_cases h : s = 200
      · subst h
        rcases d with e | ps <;> rfl
      · simp [fetchProducts, h, otelWrap, spanStarts, spanEnds,
          isSpanStart, isSpanEnd]

/-- C2: for every valid TraceContext (identifiers in their 128/64-bit
ranges and non-zero), injecting into an empty carrier and extracting from
that carrier yields the original context. -/
theorem C2_inject_extract_roundtrip (ctx : TraceContext)
    (ht : ctx.traceId < 16 ^ 32) (ht0 : ctx.traceId ≠ 0)
    (hs : ctx.spanId < 16 ^ 16) (hs0 : ctx.spanId ≠ 0) :
    extractCarrier (injectCarrier ctx []) = some ctx :=
  extract_inject ctx ht ht0 hs hs0

/-- Witness for C2 at the concrete context (traceId 1, spanId 2, sampled). -/
theorem C2_inject_extract_roundtrip_witness :
    (1 : Nat) < 16 ^ 32 ∧ (1 : Nat) ≠ 0 ∧ (2 : Nat) < 16 ^ 16 ∧ (2 : Nat) ≠ 0 ∧
      extractCarrier (injectCarrier ⟨1, 2, true⟩ []) = some ⟨1, 2, true⟩ :=
  ⟨by norm_num, by norm_num, by norm_num, by norm_num,
    C2_inject_extract_roundtrip ⟨1, 2, true⟩ (by norm_num) (by norm_num)
      (by norm_num) (by norm_num)⟩

/-- C3 counterexample: the completed `GET /error` request of example-api
yields its one counter increment with the fixed label *pair*
`(path, method)` — not a triple containing `status_code` — and records no
latency observation at all, so the claimed per-request metric shape fails. -/
theorem C3_counterexample :
    ¬ countedWithStatusTriple
      (otelWrap "error-handler-span" (errorRouteHandler "GET")) := by
  simp only [countedWithStatusTriple]
  decide

/-- C3 (amended): every completed request on a metric-recording route
yields exactly one counter increment whose label names are the fixed pair
`(path, method)` — the counter carries no `status_code` label — and the
non-error routes also yield exactly one latency observation keyed by
`(path)`; the `/error` route yields no latency observation, and the app
root route records metrics only when its downstream call succeeds.
The otelhttp wrapper adds no metric events, so the per-handler statements
are per-request statements. -/
theorem C3_one_increment_fixed_pair :
    (∀ n h, incEvents (otelWrap n h).events = incEvents h.events ∧
      obsEvents (otelWrap n h).events = obsEvents h.events) ∧
    (∀ m w, incEvents (apiRootHandler m w).events =
        [.inc requestCountLabelNames ["/", m]] ∧
      obsEvents (apiRootHandler m w).events =
        [.observe "/" ((w : Rat) / 1000)]) ∧
    (∀ m d me, incEvents (apiProductsHandler m d me).events =
        [.inc requestCountLabelNames ["/products", m]] ∧
      obsEvents (apiProductsHandler m d me).events = [.observe "/products" d]) ∧
    (∀ m d me, incEvents (apiEmployeesHandler m d me).events =
        [.inc requestCountLabelNames ["/employees", m]] ∧
      obsEvents (apiEmployeesHandler m d me).events = [.observe "/employees" d]) ∧
    (∀ m, incEvents (errorRouteHandler m).events =
        [.inc requestCountLabelNames ["/error", m]] ∧
      obsEvents (errorRouteHandler m).events = []) ∧
    (∀ m s b t, incEvents (appRootHandler m (.success s b t)).events =
        [.inc requestCountLabelNames ["/", m]] ∧
      obsEvents (appRootHandler m (.success s b t)).events = [.observe "/" 0]) ∧
    (∀ m e, incEvents (appRootHandler m (.connError e)).events = []) ∧
    requestCountLabelNames = ["path", "method"] ∧
    "status_code" ∉ requestCountLabelNames := by
  refine ⟨?_, fun m w => ⟨rfl, rfl⟩, fun m d me => ⟨rfl, rfl⟩,
    fun m d me => ⟨rfl, rfl⟩, fun m => ⟨rfl, rfl⟩,
    fun m s b t => ⟨rfl, rfl⟩, fun m e => rfl, rfl, by decide⟩
  intro n h
  constructor <;>
    simp [otelWrap, incEvents, obsEvents, isInc, isObserve, List.filter_append]

/-- C4 counterexample: the app service's root handler, handed a downstream
response with the failure status 500, reports the request as a success —
it writes status 200 — contradicting the claim that a non-success
downstream status is never reported as success. -/
theorem C4_counterexample :
    (appRootHandler "GET" (.success 500 "downstream error" 7)).response.status
      = 200 := rfl

/-- C4 (amended): connection errors are surfaced as 500 by both
outbound-calling handlers, and the client-service products handler
surfaces a non-200 downstream status as 502 and a body-decode failure as
500; the app service's root handler, however, checks only for connection
errors — any downstream *response*, whatever its status code, is forwarded
with status 200 (the body passed through unchanged). -/
theorem C4_failures_surfaced_except_status :
    (∀ m e, (appRootHandler m (.connError e)).response.status = 500) ∧
    (∀ e, (fetchProducts (.connError e)).response.status = 500) ∧
    (∀ s d, s ≠ 200 → (fetchProducts (.resp s d)).response.status = 502) ∧
    (∀ e, (fetchProducts (.resp 200 (.error e))).response.status = 500) ∧
    (∀ m s b t, (appRootHandler m (.success s b t)).response.status = 200 ∧
      (appRootHandler m (.success s b t)).response.body = b) := by
  refine ⟨fun m e => rfl, fun e => rfl, ?_, fun e => rfl,
    fun m s b t => ⟨rfl, rfl⟩⟩
  intro s d h
  simp [fetchProducts, h]

/-- Witness for C4 (amended) at downstream status 500. -/
theorem C4_failures_surfaced_except_status_witness :
    (500 : Nat) ≠ 200 ∧
      (fetchProducts (.resp 500 (.ok []))).response.status = 502 :=
  ⟨by decide, C4_failures_surfaced_except_status.2.2.1 500 (.ok []) (by decide)⟩

/-- C5: for a chain of services linked only by the injected carrier of the
previous hop, every span — the originating root span and each hop's span —
carries the root's trace id, and each hop's span has the previous hop's
span id as its parent (`wellLinked`), provided the minted span ids are
valid (64-bit, non-zero). -/
theorem C5_chain_linkage (root : TraceContext) (fs : List (Nat × Nat))
    (ht : root.traceId < 16 ^ 32) (ht0 : root.traceId ≠ 0)
    (hs : root.spanId < 16 ^ 16) (hs0 : root.spanId ≠ 0)
    (hfs : ∀ p ∈ fs, p.2 < 16 ^ 16 ∧ p.2 ≠ 0) :
    (∀ s ∈ SpanRec.mk root.traceId root.spanId none ::
        chainFrom (injectCarrier root []) fs, s.traceId = root.traceId) ∧
      wellLinked none (SpanRec.mk root.traceId root.spanId none ::
        chainFrom (injectCarrier root []) fs) := by
  obtain ⟨htr, hlink⟩ := chainFrom_invariant fs (injectCarrier root []) root
    (extract_inject root ht ht0 hs hs0) ht ht0 hfs
  constructor
  · intro s hs'
    rcases List.mem_cons.mp hs' with rfl | hmem
    · rfl
    · exact htr s hmem
  · exact ⟨rfl, hlink⟩

/-- Witness for C5: a three-hop chain from root (traceId 1, spanId 2) with
minted span ids 3 and 4. -/
theorem C5_chain_linkage_witness :
    ((1 : Nat) < 16 ^ 32 ∧ (1 : Nat) ≠ 0 ∧ (2 : Nat) < 16 ^ 16 ∧
      (2 : Nat) ≠ 0 ∧
      (∀ p ∈ [((0 : Nat), (3 : Nat)), (0, 4)], p.2 < 16 ^ 16 ∧ p.2 ≠ 0)) ∧
    ((∀ s ∈ SpanRec.mk 1 2 none ::
        chainFrom (injectCarrier ⟨1, 2, true⟩ []) [((0 : Nat), (3 : Nat)), (0, 4)],
        s.traceId = 1) ∧
      wellLinked none (SpanRec.mk 1 2 none ::
        chainFrom (injectCarrier ⟨1, 2, true⟩ []) [((0 : Nat), (3 : Nat)), (0, 4)])) :=
  ⟨⟨by norm_num, by norm_num, by norm_num, by norm_num, by decide⟩,
    C5_chain_linkage ⟨1, 2, true⟩ [(0, 3), (0, 4)] (by norm_num) (by norm_num)
      (by norm_num) (by norm_num) (by decide)⟩

/-- C6: extraction is a total function that yields `none` — never an
error — on every malformed traceparent: wrong segment count, wrong field
lengths, a non-hex character in any field; on extraction failure the
wrapper falls back to a fresh root TraceContext, and the wrapped handler's
response is the underlying handler's response unchanged, so the request
completes as if uninstrumented. -/
theorem C6_malformed_never_raises :
    (∀ cs : List Char, (splitOnDash cs).length ≠ 4 →
      parseTraceparent cs = none) ∧
    (∀ (cs : List Char) v t s f, splitOnDash cs = [v, t, s, f] →
      ¬(v.length = 2 ∧ t.length = 32 ∧ s.length = 16 ∧ f.length = 2) →
      parseTraceparent cs = none) ∧
    (∀ (cs : List Char) v t s f c, splitOnDash cs = [v, t, s, f] →
      (c ∈ v ∨ c ∈ t ∨ c ∈ s ∨ c ∈ f) → hexDigitToNat c = none →
      parseTraceparent cs = none) ∧
    (∀ (carrier : Carrier) ft fsp, extractCarrier carrier = none →
      inboundContext carrier ft fsp = ⟨ft, fsp, false⟩) ∧
    (∀ nm h, (otelWrap nm h).response = h.response) := by
  refine ⟨?_, ?_, ?_, ?_, fun nm h => rfl⟩
  · intro cs h
    rw [parseTraceparent]
    exact parseSegs_length_ne_four _ h
  · intro cs v t s f hsplit hlen
    rw [parseTraceparent, hsplit]
    exact parseSegs_none_of_bad_lengths v t s f hlen
  · intro cs v t s f c hsplit hmem hnone
    rw [parseTraceparent, hsplit]
    apply parseSegs_none_of_nonhex
    rcases hmem with h | h | h | h
    · exact Or.inl (fromHexCore_none v c h hnone 0)
    · exact Or.inr (Or.inl (fromHexCore_none t c h hnone 0))
    · exact Or.inr (Or.inr (Or.inl (fromHexCore_none s c h hnone 0)))
    · exact Or.inr (Or.inr (Or.inr (fromHexCore_none f c h hnone 0)))
  · intro carrier ft fsp h
    rw [inboundContext, h]

/-- Witness for C6 at concrete malformed inputs: a two-dash string with the
wrong segment count, a four-segment string with wrong field lengths, a
four-segment string with a non-hex character, and the empty carrier. -/
theorem C6_malformed_never_raises_witness :
    ((splitOnDash ['0', '0', '-', 'a', 'b']).length ≠ 4 ∧
      parseTraceparent ['0', '0', '-', 'a', 'b'] = none) ∧
    (splitOnDash ['0', '-', 'a', '-', 'b', '-', 'c'] =
        [['0'], ['a'], ['b'], ['c']] ∧
      parseTraceparent ['0', '-', 'a', '-', 'b', '-', 'c'] = none) ∧
    (splitOnDash ['0', 'z', '-', 'a', '-', 'b', '-', 'c'] =
        [['0', 'z'], ['a'], ['b'], ['c']] ∧
      hexDigitToNat 'z' = none ∧
      parseTraceparent ['0', 'z', '-', 'a', '-', 'b', '-', 'c'] = none) ∧
    (extractCarrier [] = none ∧
      inboundContext [] 7 8 = ⟨7, 8, false⟩) :=
  ⟨⟨by decide, C6_malformed_never_raises.1 _ (by decide)⟩,
    ⟨by decide, C6_malformed_never_raises.2.1 ['0', '-', 'a', '-', 'b', '-', 'c']
      ['0'] ['a'] ['b'] ['c'] (by decide) (by decide)⟩,
    ⟨by decide, by decide,
      C6_malformed_never_raises.2.2.1 ['0', 'z', '-', 'a', '-', 'b', '-', 'c']
        ['0', 'z'] ['a'] ['b'] ['c'] 'z' (by decide)
        (Or.inl (by decide)) (by decide)⟩,
    ⟨rfl, C6_malformed_never_raises.2.2.2.1 [] 7 8 rfl⟩⟩

/-- C7 counterexample: no event of the completed `GET /error` request — the
wrapper span included — carries a `status_code = 500` label pair; the
counter vector is declared with only the `path` and `method` labels, so the
claimed `status_code=500` increment does not exist. -/
theorem C7_counterexample :
    ¬ ∃ e ∈ (otelWrap "error-handler-span" (errorRouteHandler "GET")).events,
      carriesLabel e "status_code" "500" = true := by
  decide

/-- C7 (amended): every request to `/error` writes a 500 response whose
body indicates failure, records exactly one counter increment keyed by the
fixed `(path, method)` pair with path `/error` — with no `status_code`
label and no latency observation — and the wrapper span (modelled from the
spec, §4.4 (5)) is left with error status. -/
theorem C7_error_route :
    ∀ m, (errorRouteHandler m).response.status = 500 ∧
      (errorRouteHandler m).response.body = "An intentional error occurred.\n" ∧
      incEvents (errorRouteHandler m).events =
        [.inc requestCountLabelNames ["/error", m]] ∧
      obsEvents (errorRouteHandler m).events = [] ∧
      wrapperSpanStatus (errorRouteHandler m) = .error :=
  fun m => ⟨rfl, rfl, rfl, rfl, rfl⟩

/-- C8: every successful request to the app service's root route records a
latency observation of exactly 0 seconds, whatever the downstream status
and body and however long the downstream call actually took (`t` is the
call's real elapsed time and does not appear in the observation). -/
theorem C8_zero_latency :
    ∀ m s b t, obsEvents (appRootHandler m (.success s b t)).events =
      [.observe "/" 0] :=
  fun m s b t => rfl

/-- C9: the bottleneck simulators terminate for every iteration count with
a value fully determined by that count (closed forms of both busy loops),
the value is discarded — the products handler's response and full event
trace are independent of the iteration count — and running the simulator
contributes no counter, histogram, or gauge event, so no registry state or
response content changes as a result of running it. -/
theorem C9_bottleneck_pure :
    (∀ n, cpuWorkValues n = (List.range n).map fun i => i * i) ∧
    (∀ n, bottleneckCounter n = n) ∧
    (∀ n m : Nat,
      (svcProductsHandler n).response = (svcProductsHandler m).response) ∧
    (∀ n m : Nat, (svcProductsHandler n).events = (svcProductsHandler m).events) ∧
    (∀ n, metricEvents (svcProductsHandler n).events = []) ∧
    (∀ n, metricEvents (simulateBottleneck n).1 = []) :=
  ⟨cpuWorkValues_closed, bottleneckCounter_closed, fun n m => rfl,
    fun n m => rfl, fun n => rfl, fun n => rfl⟩

/-- C10: when the app root handler's outbound call fails with a connection
error, the handler writes a 500 with the failure body and returns before
the metric statements: the trace contains no counter increment, latency
observation, or gauge update — the registry is untouched on that path
(also under the wrapper, which adds no metric events). -/
theorem C10_error_path_no_metrics :
    ∀ m e, (appRootHandler m (.connError e)).response.status = 500 ∧
      (appRootHandler m (.connError e)).response.body =
        "Failed to call example-api service\n" ∧
      metricEvents (appRootHandler m (.connError e)).events = [] ∧
      metricEvents (otelWrap "example-app-handler-span"
        (appRootHandler m (.connError e))).events = [] :=
  fun m e => ⟨rfl, rfl, rfl, rfl⟩

end O11y
